import Mathlib

set_option maxRecDepth 40000

/-!
Verification of the TLSSigAPI token-signing crate (`src/lib.rs`,
`src/b64_url_safe.rs`) against its natural-language specification.

The code is embedded shallowly: bytes are `Nat` (< 256), machine words are
`Nat` reduced mod `2^32`, Rust `DateTime<Utc>` values are represented by
their `timestamp_millis()` value (an `Int`), and `chrono::Duration` by its
`num_milliseconds()` value (an `Int`), because those are the only
observations the code makes of them.
-/

/-- Reduce a natural number to a 32-bit word, as Rust `u32` wrapping does. -/
def w32 (n : Nat) : Nat := n % 4294967296

/-- Right rotation of a 32-bit word by `k` positions (for `k ≤ 32`). -/
def rotr (k x : Nat) : Nat := w32 ((x >>> k) + (x % 2 ^ k) * 2 ^ (32 - k))

/-- SHA-256 big sigma-0. -/
def bsig0 (x : Nat) : Nat := rotr 2 x ^^^ rotr 13 x ^^^ rotr 22 x

/-- SHA-256 big sigma-1. -/
def bsig1 (x : Nat) : Nat := rotr 6 x ^^^ rotr 11 x ^^^ rotr 25 x

/-- SHA-256 small sigma-0. -/
def ssig0 (x : Nat) : Nat := rotr 7 x ^^^ rotr 18 x ^^^ (x >>> 3)

/-- SHA-256 small sigma-1. -/
def ssig1 (x : Nat) : Nat := rotr 17 x ^^^ rotr 19 x ^^^ (x >>> 10)

/-- SHA-256 choice function. -/
def chf (x y z : Nat) : Nat := (x &&& y) ^^^ ((x ^^^ 4294967295) &&& z)

/-- SHA-256 majority function. -/
def majf (x y z : Nat) : Nat := (x &&& y) ^^^ (x &&& z) ^^^ (y &&& z)

/-- The 64 SHA-256 round constants (FIPS 180-4), written in decimal. -/
def sha256K : List Nat :=
  [1116352408, 1899447441, 3049323471, 3921009573, 961987163,
   1508970993, 2453635748, 2870763221, 3624381080, 310598401,
   607225278, 1426881987, 1925078388, 2162078206, 2614888103,
   3248222580, 3835390401, 4022224774, 264347078, 604807628,
   770255983, 1249150122, 1555081692, 1996064986, 2554220882,
   2821834349, 2952996808, 3210313671, 3336571891, 3584528711,
   113926993, 338241895, 666307205, 773529912, 1294757372,
   1396182291, 1695183700, 1986661051, 2177026350, 2456956037,
   2730485921, 2820302411, 3259730800, 3345764771, 3516065817,
   3600352804, 4094571909, 275423344, 430227734, 506948616,
   659060556, 883997877, 958139571, 1322822218, 1537002063,
   1747873779, 1955562222, 2024104815, 2227730452, 2361852424,
   2428436474, 2756734187, 3204031479, 3329325298]

/-- The SHA-256 initial hash value (FIPS 180-4), written in decimal. -/
def sha256H0 : List Nat :=
  [1779033703, 3144134277, 1013904242, 2773480762,
   1359893119, 2600822924, 528734635, 1541459225]

/-- A natural number as 8 big-endian bytes (for the SHA-256 length field). -/
def be64 (n : Nat) : List Nat :=
  [n >>> 56 % 256, n >>> 48 % 256, n >>> 40 % 256, n >>> 32 % 256,
   n >>> 24 % 256, n >>> 16 % 256, n >>> 8 % 256, n % 256]

/-- SHA-256 message padding: append 0x80, zeros to 56 mod 64, then the
big-endian 64-bit bit length. -/
def sha256Pad (msg : List Nat) : List Nat :=
  let L := msg.length
  let k := (120 - (L + 1) % 64) % 64
  msg ++ 0x80 :: List.replicate k 0 ++ be64 (8 * L)

/-- Group a byte list into big-endian 32-bit words (four bytes per word). -/
def toWords : List Nat → List Nat
  | b1 :: b2 :: b3 :: b4 :: rest =>
      (((b1 * 256 + b2) * 256 + b3) * 256 + b4) :: toWords rest
  | _ => []

/-- Extend 16 message words to the 64-entry SHA-256 message schedule. -/
def sched (w16 : List Nat) : Array Nat :=
  (List.range 48).foldl
    (fun a _ =>
      let t := a.size
      a.push (w32 (ssig1 (a.getD (t - 2) 0) + a.getD (t - 7) 0 +
                   ssig0 (a.getD (t - 15) 0) + a.getD (t - 16) 0)))
    w16.toArray

/-- One SHA-256 compression round on the 8-word working state. -/
def sha256Round (st : List Nat) (k w : Nat) : List Nat :=
  match st with
  | [a, b, c, d, e, f, g, h] =>
      let t1 := w32 (h + bsig1 e + chf e f g + k + w)
      let t2 := w32 (bsig0 a + majf a b c)
      [w32 (t1 + t2), a, b, c, w32 (d + t1), e, f, g]
  | other => other

/-- The SHA-256 compression function for one 16-word block. -/
def sha256Compress (hv : List Nat) (blockWords : List Nat) : List Nat :=
  let w := sched blockWords
  let st := (List.range 64).foldl
    (fun st t => sha256Round st (sha256K.getD t 0) (w.getD t 0)) hv
  List.zipWith (fun x y => w32 (x + y)) hv st

/-- Fold the SHA-256 compression function over a padded byte stream,
64 bytes at a time; the first argument counts the blocks remaining. -/
def sha256Blocks : Nat → List Nat → List Nat → List Nat
  | 0, hv, _ => hv
  | n + 1, hv, bytes =>
      sha256Blocks n (sha256Compress hv (toWords (bytes.take 64))) (bytes.drop 64)

/-- A 32-bit word as 4 big-endian bytes. -/
def wordBE (n : Nat) : List Nat :=
  [n >>> 24 % 256, n >>> 16 % 256, n >>> 8 % 256, n % 256]

/-- SHA-256 of a byte list, as its 32 digest bytes. -/
def sha256 (msg : List Nat) : List Nat :=
  let padded := sha256Pad msg
  (sha256Blocks (padded.length / 64) sha256H0 padded).flatMap wordBE

/-- HMAC-SHA256 (RFC 2104) over byte lists: keys longer than the 64-byte
block are hashed first, shorter keys are zero-padded; any key length,
including zero, is accepted. This models `ring::hmac` with
`HMAC_SHA256`. -/
def hmacSha256 (key msg : List Nat) : List Nat :=
  let k0 := if key.length > 64 then sha256 key else key
  let kpad := k0 ++ List.replicate (64 - k0.length) 0
  sha256 ((kpad.map (fun b => b ^^^ 0x5c)) ++
          sha256 ((kpad.map (fun b => b ^^^ 0x36)) ++ msg))

/-- UTF-8 encoding of a single character (1 to 4 bytes). -/
def utf8Bytes (c : Char) : List Nat :=
  let n := c.toNat
  if n < 128 then [n]
  else if n < 2048 then [192 + n / 64, 128 + n % 64]
  else if n < 65536 then [224 + n / 4096, 128 + n / 64 % 64, 128 + n % 64]
  else [240 + n / 262144, 128 + n / 4096 % 64, 128 + n / 64 % 64, 128 + n % 64]

/-- The UTF-8 bytes of a string, modelling Rust `str::as_bytes`. -/
def strBytes (s : String) : List Nat := s.data.flatMap utf8Bytes

/-- The standard base64 alphabet, as a list of characters. -/
def b64Alphabet : List Char :=
  "ABCDEFGHIJKLMNOPQRSTUVWXYZabcdefghijklmnopqrstuvwxyz0123456789+/".data

/-- The base64 character for a 6-bit value. -/
def b64Char (n : Nat) : Char := b64Alphabet.getD n 'A'

/-- Standard base64 encoding with padding, three input bytes at a time,
modelling `base64::encode_config(_, base64::STANDARD)`. -/
def b64EncodeList : List Nat → List Char
  | [] => []
  | [b1] => [b64Char (b1 / 4), b64Char (b1 % 4 * 16), '=', '=']
  | [b1, b2] => [b64Char (b1 / 4), b64Char (b1 % 4 * 16 + b2 / 16),
                 b64Char (b2 % 16 * 4), '=']
  | b1 :: b2 :: b3 :: rest =>
      b64Char (b1 / 4) :: b64Char (b1 % 4 * 16 + b2 / 16) ::
      b64Char (b2 % 16 * 4 + b3 / 64) :: b64Char (b3 % 64) :: b64EncodeList rest

/-- Standard base64 encoding with padding, as a string. -/
def b64Encode (bs : List Nat) : String := String.mk (b64EncodeList bs)

/-- Replace every occurrence of character `a` by character `b`, modelling
Rust `str::replace` with a single-character pattern and a single-character
replacement string. -/
def replaceChar (s : String) (a b : Char) : String :=
  String.mk (s.data.map (fun c => if c = a then b else c))

/-- The customized URL-safe encoder of `src/b64_url_safe.rs`: standard
base64 with padding, then `+` → `*`, `/` → `-`, `=` → `_`. -/
def b64UrlSafeEncode (msg : List Nat) : String :=
  replaceChar (replaceChar (replaceChar (b64Encode msg) '+' '*') '/' '-') '=' '_'

/-- The value of a hexadecimal digit character. -/
def hexVal (c : Char) : Nat :=
  if '0' ≤ c ∧ c ≤ '9' then c.toNat - 48
  else if 'a' ≤ c ∧ c ≤ 'f' then c.toNat - 87
  else if 'A' ≤ c ∧ c ≤ 'F' then c.toNat - 55
  else 0

/-- Decode pairs of hex digit characters into bytes. -/
def hexDecodePairs : List Char → List Nat
  | c1 :: c2 :: rest => (hexVal c1 * 16 + hexVal c2) :: hexDecodePairs rest
  | _ => []

/-- Decode a hex string into its byte list (used only to state what the
code does NOT do with the secret). -/
def hexDecode (s : String) : List Nat := hexDecodePairs s.data

/-- One hex digit character (lowercase) for a value below 16. -/
def hexDigit (n : Nat) : Char := "0123456789abcdef".data.getD n '0'

/-- Four lowercase hex digits, for JSON `\u00XX` control-character escapes
as `serde_json` emits them. -/
def hex4 (n : Nat) : String :=
  String.mk [hexDigit (n / 4096 % 16), hexDigit (n / 256 % 16),
             hexDigit (n / 16 % 16), hexDigit (n % 16)]

/-- JSON string escaping of one character, as `serde_json` does it:
quote and backslash escaped, control characters as short escapes or
`\u00XX`. -/
def jsonEscapeChar (c : Char) : String :=
  if c = '"' then "\\\""
  else if c = '\\' then "\\\\"
  else if c = '\x08' then "\\b"
  else if c = '\x09' then "\\t"
  else if c = '\x0a' then "\\n"
  else if c = '\x0c' then "\\f"
  else if c = '\x0d' then "\\r"
  else if c.toNat < 32 then "\\u" ++ hex4 c.toNat
  else String.singleton c

/-- JSON string escaping, character by character. -/
def jsonEscape (s : String) : String :=
  String.join (s.data.map jsonEscapeChar)

/-- A JSON value as the record needs it: a string, an unsigned integer
(`u64`), or a signed integer (`i64`). -/
inductive JVal where
  | str : String → JVal
  | nat : Nat → JVal
  | int : Int → JVal
deriving DecidableEq

/-- Compact JSON rendering of a value, as `serde_json::Value::to_string`
renders leaves. -/
def JVal.render : JVal → String
  | .str s => "\"" ++ jsonEscape s ++ "\""
  | .nat n => toString n
  | .int i => toString i

/-- Modelled from the spec: compact JSON-object rendering of an ordered
field list, standing in for `serde_json::Value::to_string` on the object
built in `gen_sign_with_time` (the `serde_json` crate itself is not under
`src/`). Per the spec the record is "serialized into a deterministic
key/value text form (JSON object)" whose "field insertion order ... is:
version, identifier, app id, expire, issued-at, [user payload], signature",
so serialization is modelled as preserving the insertion order of the
field list. -/
def renderObj (fields : List (String × JVal)) : String :=
  "\x7b" ++
    String.intercalate ","
      (fields.map (fun kv => "\"" ++ jsonEscape kv.1 ++ "\":" ++ kv.2.render)) ++
  "\x7d"

/-- The Adler-32 checksum of a byte list, as the zlib wrapper requires. -/
def adler32 (bs : List Nat) : Nat :=
  let p := bs.foldl
    (fun (st : Nat × Nat) b => ((st.1 + b) % 65521, (st.2 + st.1 + b) % 65521))
    (1, 0)
  p.2 * 65536 + p.1

/-- A natural number as 4 big-endian bytes. -/
def be32 (n : Nat) : List Nat := [n >>> 24 % 256, n >>> 16 % 256, n >>> 8 % 256, n % 256]

/-- Stored (uncompressed) DEFLATE blocks for a byte list; the first
argument is fuel bounding the number of blocks. -/
def deflateStoredBlocks : Nat → List Nat → List Nat
  | 0, _ => []
  | fuel + 1, bs =>
    if bs.length ≤ 65535 then
      let L := bs.length
      1 :: L % 256 :: L / 256 :: (65535 - L) % 256 :: (65535 - L) / 256 :: bs
    else
      0 :: 255 :: 255 :: 0 :: 0 ::
        (bs.take 65535 ++ deflateStoredBlocks fuel (bs.drop 65535))

/-- Modelled from the spec: the compressor
(`deflate::deflate_bytes_zlib_conf(_, Compression::Best)`, a crate not
under `src/`). The spec guarantees only "DEFLATE (zlib-wrapped)
compression" that is "lossless and deterministic", with byte-identical
output across implementations explicitly NOT guaranteed; it is modelled
here as a valid deterministic zlib stream using stored DEFLATE blocks:
the standard zlib header, the stored-block payload, and the Adler-32
checksum. -/
def deflateBytesZlib (bs : List Nat) : List Nat :=
  0x78 :: 0x01 :: deflateStoredBlocks (bs.length / 65535 + 1) bs ++ be32 (adler32 bs)

/-- The signer of `src/lib.rs`: application id, protocol version tag, and
secret key. -/
structure TlsSigApiVer2 where
  sdkappid : Nat
  tls_ver : String
  secret : String
deriving DecidableEq

/-- `TlsSigApiVer2::new`: stores the app id and the key as given and fixes
the version tag to `"2.0"`. -/
def TlsSigApiVer2.new (sdkappid : Nat) (key : String) : TlsSigApiVer2 :=
  { sdkappid := sdkappid, tls_ver := "2.0", secret := key }

/-- `TlsSigApiVer2::update_key`: replaces the secret in place. -/
def TlsSigApiVer2.update_key (s : TlsSigApiVer2) (key : String) : TlsSigApiVer2 :=
  { s with secret := key }

/-- The canonical message built inside `TlsSigApiVer2::hmac_sha256`: the
`format!` string of the four fixed fields (the time and expire fields are
`timestamp_millis()` and `num_milliseconds()` values), then
`push_str` of the user-payload line when a base64 payload is present. -/
def rawContentToBeSigned (identifier : String) (sdkappid : Nat)
    (timeMillis expireMillis : Int) (base64_buf : Option String) : String :=
  let base := "TLS.identifier:" ++ identifier ++ "\nTLS.sdkappid:" ++
    toString sdkappid ++ "\nTLS.time:" ++ toString timeMillis ++
    "\nTLS.expire:" ++ toString expireMillis ++ "\n"
  match base64_buf with
  | some buf => base ++ ("TLS.userbuf:" ++ buf ++ "\n")
  | none => base

/-- `TlsSigApiVer2::hmac_sha256`: HMAC-SHA256 of the canonical message,
keyed with the UTF-8 bytes of the stored secret (`self.secret.as_bytes()`),
printed as standard base64 with padding. -/
def TlsSigApiVer2.hmac_sha256 (s : TlsSigApiVer2) (identifier : String)
    (timeMillis expireMillis : Int) (base64_buf : Option String) : String :=
  b64Encode (hmacSha256 (strBytes s.secret)
    (strBytes (rawContentToBeSigned identifier s.sdkappid timeMillis expireMillis base64_buf)))

/-- The ordered field list of the structured record built in
`gen_sign_with_time`: the five fields of the `json!` literal in their
written order, then `TLS.userbuf` when a payload is present, then
`TLS.sig` last. -/
def recordFields (s : TlsSigApiVer2) (identifier : String)
    (timeMillis expireMillis : Int) (base64_buf : Option String)
    (sig : String) : List (String × JVal) :=
  [("TLS.ver", JVal.str s.tls_ver),
   ("TLS.identifier", JVal.str identifier),
   ("TLS.sdkappid", JVal.nat s.sdkappid),
   ("TLS.expire", JVal.int expireMillis),
   ("TLS.time", JVal.int timeMillis)] ++
  (match base64_buf with
   | some buf => [("TLS.userbuf", JVal.str buf)]
   | none => []) ++
  [("TLS.sig", JVal.str sig)]

/-- The serialized text of the structured record (`dict.to_string()` in
`gen_sign_with_time`). -/
def sigRecordText (s : TlsSigApiVer2) (identifier : String)
    (timeMillis expireMillis : Int) (base64_buf : Option String) : String :=
  renderObj (recordFields s identifier timeMillis expireMillis base64_buf
    (s.hmac_sha256 identifier timeMillis expireMillis base64_buf))

/-- `TlsSigApiVer2::gen_sign_with_time`: base64-encode the payload if
present, build the record with the signature, compress its UTF-8 bytes
with zlib, and encode with the customized URL-safe encoder. The
`DateTime<Utc>` argument is represented by its `timestamp_millis()`
value and the `Duration` by its `num_milliseconds()` value, which are
the only observations the function makes of them. -/
def TlsSigApiVer2.gen_sign_with_time (s : TlsSigApiVer2) (identifier : String)
    (timeMillis expireMillis : Int) (userbuf : Option String) : String :=
  let base64_buf := userbuf.map (fun buf => b64Encode (strBytes buf))
  b64UrlSafeEncode (deflateBytesZlib
    (strBytes (sigRecordText s identifier timeMillis expireMillis base64_buf)))

/-- The fixture secret key of the repository's unit tests and of the
spec's concrete scenario. -/
def mockKey : String :=
  "5bd2850fff3ecb11d7c805251c51ee463a25727bddc2385f3fa8bfee1bb93b5e"

/-- The fixture issuance time 2019-10-01T06:10:00Z as its
`timestamp_millis()` value (the repository's own test comment records
`timestamp_millis = 1569910200000`). -/
def mockTimeMillis : Int := 1569910200000

/-- The fixture expire duration of 180 days as its `num_milliseconds()`
value. -/
def mockExpireMillis : Int := 15552000000

/-- The character substitution described by the spec for the text
encoder: `+` → `*`, `/` → `-`, `=` → `_`, all other characters
unchanged. -/
def substSpecChar (c : Char) : Char :=
  if c = '+' then '*' else if c = '/' then '-' else if c = '=' then '_' else c

/-- The text encoder as the spec words it: standard base64 with padding,
then the three-character substitution applied to every character. -/
def b64UrlSafeSpec (msg : List Nat) : String :=
  String.mk ((b64EncodeList msg).map substSpecChar)

/-! ## Theorems -/

/-- Helper: every character the base64 encoder draws from the alphabet
table really is an alphabet character. -/
theorem b64Char_mem_alphabet (n : Nat) : b64Char n ∈ b64Alphabet := by
  unfold b64Char
  rcases h : b64Alphabet[n]? with _ | c
  · simp [h]
    decide
  · have hm := List.getElem?_mem h
    simpa [h] using hm

/-- Helper: every character emitted by the base64 encoder is an alphabet
character or the padding character. -/
theorem mem_b64EncodeList (bs : List Nat) (c : Char) (hc : c ∈ b64EncodeList bs) :
    c ∈ b64Alphabet ∨ c = '=' := by
  induction bs using b64EncodeList.induct with
  | case1 =>
    simp [b64EncodeList] at hc
  | case2 b1 =>
    simp only [b64EncodeList, List.mem_cons, List.not_mem_nil, or_false] at hc
    rcases hc with h | h | h | h
    · exact Or.inl (h ▸ b64Char_mem_alphabet _)
    · exact Or.inl (h ▸ b64Char_mem_alphabet _)
    · exact Or.inr h
    · exact Or.inr h
  | case3 b1 b2 =>
    simp only [b64EncodeList, List.mem_cons, List.not_mem_nil, or_false] at hc
    rcases hc with h | h | h | h
    · exact Or.inl (h ▸ b64Char_mem_alphabet _)
    · exact Or.inl (h ▸ b64Char_mem_alphabet _)
    · exact Or.inl (h ▸ b64Char_mem_alphabet _)
    · exact Or.inr h
  | case4 b1 b2 b3 rest ih =>
    simp only [b64EncodeList, List.mem_cons] at hc
    rcases hc with h | h | h | h | h
    · exact Or.inl (h ▸ b64Char_mem_alphabet _)
    · exact Or.inl (h ▸ b64Char_mem_alphabet _)
    · exact Or.inl (h ▸ b64Char_mem_alphabet _)
    · exact Or.inl (h ▸ b64Char_mem_alphabet _)
    · exact ih h

/-- Helper: the three sequential single-character replacements of
`b64_url_safe::encode` act on each character exactly as the spec's
simultaneous three-character substitution table. -/
theorem replaceCharComposition (c : Char) :
    (fun x => if x = '=' then '_' else x)
      ((fun x => if x = '/' then '-' else x)
        ((fun x => if x = '+' then '*' else x) c)) = substSpecChar c := by
  by_cases h1 : c = '+'
  · simp [h1, substSpecChar]
  · by_cases h2 : c = '/'
    · simp [h1, h2, substSpecChar]
    · by_cases h3 : c = '='
      · simp [h1, h2, h3, substSpecChar]
      · simp [h1, h2, h3, substSpecChar]

/-- Helper: no character of the base64 alphabet is mapped onto `+`, `/`
or `=` by the substitution. -/
theorem substSpecChar_alphabet_avoids :
    ∀ a ∈ b64Alphabet,
      substSpecChar a ≠ '+' ∧ substSpecChar a ≠ '/' ∧ substSpecChar a ≠ '=' := by
  decide

/-- Claim C2: for every identifier, app id, issuance time, expire duration
and optional payload, the canonical message is the `key:value` lines in the
fixed order identifier, app id, issued-at, expire, with the user-payload
line appended only when a payload is present, and the message ends with a
newline after its last included field. -/
theorem C2_canonical_message_structure (identifier : String) (appid : Nat)
    (t e : Int) (b : Option String) :
    (rawContentToBeSigned identifier appid t e b =
      "TLS.identifier:" ++ identifier ++ "\n" ++
      ("TLS.sdkappid:" ++ toString appid ++ "\n") ++
      ("TLS.time:" ++ toString t ++ "\n") ++
      ("TLS.expire:" ++ toString e ++ "\n") ++
      (match b with
       | some buf => "TLS.userbuf:" ++ buf ++ "\n"
       | none => ""))
    ∧ (rawContentToBeSigned identifier appid t e b).data.getLast? = some '\n' := by
  have hn : ("\n" : String).data = ['\n'] := rfl
  constructor
  · cases b <;> (apply String.ext; simp [rawContentToBeSigned, String.data_append])
  · cases b <;>
      simp [rawContentToBeSigned, String.data_append, List.getLast?_append,
        List.getLast?_cons, hn]

/-- Witness for C2 at the fixture inputs. -/
theorem C2_canonical_message_structure_witness :
    (rawContentToBeSigned "0" 1400000000 1569910200000 15552000000 none =
      "TLS.identifier:" ++ "0" ++ "\n" ++
      ("TLS.sdkappid:" ++ toString (1400000000 : Nat) ++ "\n") ++
      ("TLS.time:" ++ toString (1569910200000 : Int) ++ "\n") ++
      ("TLS.expire:" ++ toString (15552000000 : Int) ++ "\n") ++
      (match (none : Option String) with
       | some buf => "TLS.userbuf:" ++ buf ++ "\n"
       | none => ""))
    ∧ (rawContentToBeSigned "0" 1400000000 1569910200000 15552000000 none).data.getLast? =
        some '\n' :=
  C2_canonical_message_structure "0" 1400000000 1569910200000 15552000000 none

/-- Claim C3: the text encoder equals standard base64 with padding
followed by the simultaneous substitution `+` → `*`, `/` → `-`, `=` → `_`
on every character, and its output never contains `+`, `/` or `=`. -/
theorem C3_text_encoder (msg : List Nat) :
    b64UrlSafeEncode msg = b64UrlSafeSpec msg
    ∧ '+' ∉ (b64UrlSafeEncode msg).data
    ∧ '/' ∉ (b64UrlSafeEncode msg).data
    ∧ '=' ∉ (b64UrlSafeEncode msg).data := by
  have hmain : b64UrlSafeEncode msg = b64UrlSafeSpec msg := by
    unfold b64UrlSafeEncode b64UrlSafeSpec replaceChar b64Encode
    simp only [List.map_map]
    congr 1
    apply List.map_congr_left
    intro c _
    exact replaceCharComposition c
  have havoid : ∀ x ∈ (b64UrlSafeSpec msg).data, x ≠ '+' ∧ x ≠ '/' ∧ x ≠ '=' := by
    intro x hx
    have hx' : x ∈ (b64EncodeList msg).map substSpecChar := hx
    rcases List.mem_map.mp hx' with ⟨a, ha, rfl⟩
    rcases mem_b64EncodeList msg a ha with h | h
    · exact substSpecChar_alphabet_avoids a h
    · subst h; refine ⟨by decide, by decide, by decide⟩
  rw [hmain]
  refine ⟨rfl, fun hmem => ?_, fun hmem => ?_, fun hmem => ?_⟩
  · exact (havoid _ hmem).1 rfl
  · exact (havoid _ hmem).2.1 rfl
  · exact (havoid _ hmem).2.2 rfl

/-- Witness for C3 at a concrete byte list whose plain base64 encoding
contains `+`, `/` and `=` (bytes 251, 255). -/
theorem C3_text_encoder_witness :
    (b64UrlSafeEncode [251, 255] = b64UrlSafeSpec [251, 255]
      ∧ '+' ∉ (b64UrlSafeEncode [251, 255]).data
      ∧ '/' ∉ (b64UrlSafeEncode [251, 255]).data
      ∧ '=' ∉ (b64UrlSafeEncode [251, 255]).data)
    ∧ b64Encode [251, 255] = "+/8=" :=
  ⟨C3_text_encoder [251, 255], by decide⟩

/-- Claim C4: the structured record's field insertion order is exactly
version, identifier, app id, expire, issued-at, then the user payload if
present, then the signature last; and the record's text is byte-for-byte
reproducible for identical inputs. -/
theorem C4_record_field_order (s : TlsSigApiVer2) (identifier : String)
    (t e : Int) (b : Option String) (sig : String) :
    ((recordFields s identifier t e b sig).map Prod.fst =
      ["TLS.ver", "TLS.identifier", "TLS.sdkappid", "TLS.expire", "TLS.time"] ++
      (match b with | some _ => ["TLS.userbuf"] | none => []) ++ ["TLS.sig"])
    ∧ sigRecordText s identifier t e b =
        renderObj (recordFields s identifier t e b
          (s.hmac_sha256 identifier t e b))
    ∧ sigRecordText s identifier t e b = sigRecordText s identifier t e b := by
  refine ⟨?_, rfl, rfl⟩
  cases b <;> simp [recordFields]

/-- Witness for C4 at the fixture inputs with a payload present. -/
theorem C4_record_field_order_witness :
    ((recordFields (TlsSigApiVer2.new 1400000000 mockKey) "0" mockTimeMillis
        mockExpireMillis (some "YWJj") "sig").map Prod.fst =
      ["TLS.ver", "TLS.identifier", "TLS.sdkappid", "TLS.expire", "TLS.time"] ++
      (match (some "YWJj" : Option String) with
       | some _ => ["TLS.userbuf"] | none => []) ++ ["TLS.sig"])
    ∧ sigRecordText (TlsSigApiVer2.new 1400000000 mockKey) "0" mockTimeMillis
        mockExpireMillis (some "YWJj") =
        renderObj (recordFields (TlsSigApiVer2.new 1400000000 mockKey) "0"
          mockTimeMillis mockExpireMillis (some "YWJj")
          ((TlsSigApiVer2.new 1400000000 mockKey).hmac_sha256 "0" mockTimeMillis
            mockExpireMillis (some "YWJj")))
    ∧ sigRecordText (TlsSigApiVer2.new 1400000000 mockKey) "0" mockTimeMillis
        mockExpireMillis (some "YWJj") =
      sigRecordText (TlsSigApiVer2.new 1400000000 mockKey) "0" mockTimeMillis
        mockExpireMillis (some "YWJj") :=
  C4_record_field_order (TlsSigApiVer2.new 1400000000 mockKey) "0" mockTimeMillis
    mockExpireMillis (some "YWJj") "sig"

/-- Claim C5: for a fixed input tuple, repeated invocations of the MAC
computation and of the fixed-time signing pipeline give identical results:
both are pure functions of their arguments (the embedding has no state,
randomness or counters to vary between calls). -/
theorem C5_determinism (s : TlsSigApiVer2) (identifier : String) (t e : Int)
    (b u : Option String) :
    s.hmac_sha256 identifier t e b = s.hmac_sha256 identifier t e b
    ∧ s.gen_sign_with_time identifier t e u = s.gen_sign_with_time identifier t e u :=
  ⟨rfl, rfl⟩

/-- Witness for C5 at the fixture inputs. -/
theorem C5_determinism_witness :
    (TlsSigApiVer2.new 1400000000 mockKey).hmac_sha256 "0" mockTimeMillis
        mockExpireMillis none =
      (TlsSigApiVer2.new 1400000000 mockKey).hmac_sha256 "0" mockTimeMillis
        mockExpireMillis none
    ∧ (TlsSigApiVer2.new 1400000000 mockKey).gen_sign_with_time "0" mockTimeMillis
        mockExpireMillis none =
      (TlsSigApiVer2.new 1400000000 mockKey).gen_sign_with_time "0" mockTimeMillis
        mockExpireMillis none :=
  C5_determinism (TlsSigApiVer2.new 1400000000 mockKey) "0" mockTimeMillis
    mockExpireMillis none none

/-- Claim C9: `update_key` replaces only the secret; the app id and the
protocol version tag are unchanged, and the constructor fixes all three
fields (no other operation of the embedding returns a signer, so no other
operation can change one). -/
theorem C9_update_key_frame (s : TlsSigApiVer2) (k : String) (a : Nat)
    (k0 : String) :
    (s.update_key k).secret = k
    ∧ (s.update_key k).sdkappid = s.sdkappid
    ∧ (s.update_key k).tls_ver = s.tls_ver
    ∧ (TlsSigApiVer2.new a k0).sdkappid = a
    ∧ (TlsSigApiVer2.new a k0).tls_ver = "2.0"
    ∧ (TlsSigApiVer2.new a k0).secret = k0 :=
  ⟨rfl, rfl, rfl, rfl, rfl, rfl⟩

/-- Witness for C9 at the fixture signer. -/
theorem C9_update_key_frame_witness :
    ((TlsSigApiVer2.new 1400000000 "").update_key mockKey).secret = mockKey
    ∧ ((TlsSigApiVer2.new 1400000000 "").update_key mockKey).sdkappid =
        (TlsSigApiVer2.new 1400000000 "").sdkappid
    ∧ ((TlsSigApiVer2.new 1400000000 "").update_key mockKey).tls_ver =
        (TlsSigApiVer2.new 1400000000 "").tls_ver
    ∧ (TlsSigApiVer2.new 1400000000 mockKey).sdkappid = 1400000000
    ∧ (TlsSigApiVer2.new 1400000000 mockKey).tls_ver = "2.0"
    ∧ (TlsSigApiVer2.new 1400000000 mockKey).secret = mockKey :=
  C9_update_key_frame (TlsSigApiVer2.new 1400000000 "") mockKey 1400000000 mockKey

/-- Counterexample for claim C1: at the fixture inputs the canonical
message the code builds is NOT the seconds-based string claimed — the code
formats `timestamp_millis()` and `num_milliseconds()`, so the time and
expire fields are in milliseconds (the fixture time 2019-10-01T06:10:00Z
has `timestamp_millis` 1569910200000, as the repository's own test comment
records, and 180 days are 15552000000 milliseconds). -/
theorem C1_canonical_message_counterexample :
    rawContentToBeSigned "0" 1400000000 mockTimeMillis mockExpireMillis none ≠
      "TLS.identifier:0\nTLS.sdkappid:1400000000\nTLS.time:1569910200\nTLS.expire:15552000\n" := by
  decide

/-- Claim C1 as amended: at the fixture inputs the canonical message is
the milliseconds-based string, and its HMAC-SHA256 under the fixture key,
printed as base64, equals the oracle digest recorded in the repository's
passing unit test. -/
theorem C1_amended_canonical_message :
    rawContentToBeSigned "0" 1400000000 mockTimeMillis mockExpireMillis none =
      "TLS.identifier:0\nTLS.sdkappid:1400000000\nTLS.time:1569910200000\nTLS.expire:15552000000\n"
    ∧ (TlsSigApiVer2.new 1400000000 mockKey).hmac_sha256 "0" mockTimeMillis
        mockExpireMillis none =
      "bEj7EPKeOGh/DZ+LevCNXjSrLtgjj+lC8Ed0uirJXYU=" := by
  constructor
  · rfl
  · decide

/-- Claim C6: a present payload appends exactly the user-payload line to
the canonical message and the payload field to the record, an absent
payload omits both, and at the spec's fixture (payload `"abc"`, base64
`"YWJj"`) the digest with the payload differs from the digest without
it — matching the repository's two distinct test oracles. -/
theorem C6_payload_toggling (identifier : String) (appid : Nat) (t e : Int)
    (buf : String) (s : TlsSigApiVer2) (sg : String) :
    rawContentToBeSigned identifier appid t e (some buf) =
      rawContentToBeSigned identifier appid t e none ++ ("TLS.userbuf:" ++ buf ++ "\n")
    ∧ "TLS.userbuf" ∈ (recordFields s identifier t e (some buf) sg).map Prod.fst
    ∧ "TLS.userbuf" ∉ (recordFields s identifier t e none sg).map Prod.fst
    ∧ (TlsSigApiVer2.new 1400000000 mockKey).hmac_sha256 "0" mockTimeMillis
        mockExpireMillis (some (b64Encode (strBytes "abc"))) ≠
      (TlsSigApiVer2.new 1400000000 mockKey).hmac_sha256 "0" mockTimeMillis
        mockExpireMillis none := by
  refine ⟨rfl, ?_, ?_, ?_⟩
  · simp [recordFields]
  · simp [recordFields]
  · decide

/-- Witness for C6 at concrete inputs. -/
theorem C6_payload_toggling_witness :
    rawContentToBeSigned "10086" 0 0 0 (some "YWJj") =
      rawContentToBeSigned "10086" 0 0 0 none ++ ("TLS.userbuf:" ++ "YWJj" ++ "\n")
    ∧ "TLS.userbuf" ∈
        (recordFields (TlsSigApiVer2.new 0 "") "10086" 0 0 (some "YWJj") "x").map Prod.fst
    ∧ "TLS.userbuf" ∉
        (recordFields (TlsSigApiVer2.new 0 "") "10086" 0 0 none "x").map Prod.fst
    ∧ (TlsSigApiVer2.new 1400000000 mockKey).hmac_sha256 "0" mockTimeMillis
        mockExpireMillis (some (b64Encode (strBytes "abc"))) ≠
      (TlsSigApiVer2.new 1400000000 mockKey).hmac_sha256 "0" mockTimeMillis
        mockExpireMillis none :=
  C6_payload_toggling "10086" 0 0 0 "YWJj" (TlsSigApiVer2.new 0 "") "x"

/-- Claim C7: rotating the key away and back to the original reproduces
exactly the original digest for all inputs (the signer returns to its
original state), and at the fixture, rotating from the fixture key to the
empty key changes the digest. -/
theorem C7_key_rotation (s : TlsSigApiVer2) (k' identifier : String)
    (t e : Int) (b : Option String) :
    ((s.update_key k').update_key s.secret).hmac_sha256 identifier t e b =
      s.hmac_sha256 identifier t e b
    ∧ ((TlsSigApiVer2.new 1400000000 mockKey).update_key "").hmac_sha256 "0"
        mockTimeMillis mockExpireMillis none ≠
      (TlsSigApiVer2.new 1400000000 mockKey).hmac_sha256 "0" mockTimeMillis
        mockExpireMillis none := by
  constructor
  · rfl
  · decide

/-- Witness for C7 at concrete inputs. -/
theorem C7_key_rotation_witness :
    (((TlsSigApiVer2.new 1400000000 mockKey).update_key "other").update_key
        (TlsSigApiVer2.new 1400000000 mockKey).secret).hmac_sha256 "0"
        mockTimeMillis mockExpireMillis none =
      (TlsSigApiVer2.new 1400000000 mockKey).hmac_sha256 "0" mockTimeMillis
        mockExpireMillis none
    ∧ ((TlsSigApiVer2.new 1400000000 mockKey).update_key "").hmac_sha256 "0"
        mockTimeMillis mockExpireMillis none ≠
      (TlsSigApiVer2.new 1400000000 mockKey).hmac_sha256 "0" mockTimeMillis
        mockExpireMillis none :=
  C7_key_rotation (TlsSigApiVer2.new 1400000000 mockKey) "other" "0"
    mockTimeMillis mockExpireMillis none

/-- Claim C8: the constructor accepts any secret, including the empty
string, and signing with the empty key still succeeds and produces a
token: with the empty key the fixture digest is a well-defined base64
string and the fixed-time signing pipeline returns a non-empty token. -/
theorem C8_empty_key_accepted (appid : Nat) (k : String) :
    (TlsSigApiVer2.new appid k).secret = k
    ∧ (TlsSigApiVer2.new 1400000000 "").hmac_sha256 "0" mockTimeMillis
        mockExpireMillis none =
      "FrCevvdPhHc/HbreWKtgT/jspeiiQm83IiZlimwf1Ks="
    ∧ (TlsSigApiVer2.new 1400000000 "").gen_sign_with_time "0" mockTimeMillis
        mockExpireMillis none ≠ "" := by
  refine ⟨rfl, by decide, by decide⟩

/-- Witness for C8 with the empty key itself. -/
theorem C8_empty_key_accepted_witness :
    (TlsSigApiVer2.new 1400000000 "").secret = ""
    ∧ (TlsSigApiVer2.new 1400000000 "").hmac_sha256 "0" mockTimeMillis
        mockExpireMillis none =
      "FrCevvdPhHc/HbreWKtgT/jspeiiQm83IiZlimwf1Ks="
    ∧ (TlsSigApiVer2.new 1400000000 "").gen_sign_with_time "0" mockTimeMillis
        mockExpireMillis none ≠ "" :=
  C8_empty_key_accepted 1400000000 ""

/-- Claim C10: the HMAC key is the raw UTF-8 bytes of the secret exactly
as stored — for every signer and input the digest is HMAC over
`strBytes s.secret` — and the hex-looking fixture secret is used as its
64 ASCII bytes, not hex-decoded to 32 bytes: the two byte strings differ,
and keying with the hex-decoded bytes changes the fixture digest. -/
theorem C10_key_is_raw_utf8 (s : TlsSigApiVer2) (identifier : String)
    (t e : Int) (b : Option String) :
    s.hmac_sha256 identifier t e b =
      b64Encode (hmacSha256 (strBytes s.secret)
        (strBytes (rawContentToBeSigned identifier s.sdkappid t e b)))
    ∧ (strBytes mockKey).length = 64
    ∧ (hexDecode mockKey).length = 32
    ∧ strBytes mockKey ≠ hexDecode mockKey
    ∧ (TlsSigApiVer2.new 1400000000 mockKey).hmac_sha256 "0" mockTimeMillis
        mockExpireMillis none ≠
      b64Encode (hmacSha256 (hexDecode mockKey)
        (strBytes (rawContentToBeSigned "0" 1400000000 mockTimeMillis
          mockExpireMillis none))) := by
  refine ⟨rfl, by decide, by decide, by decide, by decide⟩

/-- Witness for C10 at the fixture signer and inputs. -/
theorem C10_key_is_raw_utf8_witness :
    (TlsSigApiVer2.new 1400000000 mockKey).hmac_sha256 "0" mockTimeMillis
        mockExpireMillis none =
      b64Encode (hmacSha256 (strBytes (TlsSigApiVer2.new 1400000000 mockKey).secret)
        (strBytes (rawContentToBeSigned "0"
          (TlsSigApiVer2.new 1400000000 mockKey).sdkappid mockTimeMillis
          mockExpireMillis none)))
    ∧ (strBytes mockKey).length = 64
    ∧ (hexDecode mockKey).length = 32
    ∧ strBytes mockKey ≠ hexDecode mockKey
    ∧ (TlsSigApiVer2.new 1400000000 mockKey).hmac_sha256 "0" mockTimeMillis
        mockExpireMillis none ≠
      b64Encode (hmacSha256 (hexDecode mockKey)
        (strBytes (rawContentToBeSigned "0" 1400000000 mockTimeMillis
          mockExpireMillis none))) :=
  C10_key_is_raw_utf8 (TlsSigApiVer2.new 1400000000 mockKey) "0" mockTimeMillis
    mockExpireMillis none
